import Mathlib

/-!
Verification development for `file-org-v9.py` (File Renamer Pro v9.0), a
spreadsheet-driven batch file renamer.  The definitions below are a shallow
embedding of the planning/execution core of the script:

* `generate_new_name`  embeds the pure method `FileRenamerApp.generate_new_name`
  (src/file-org-v9.py, lines 682-707);
* `rename_files_from_excel` and its per-row step `execRow` embed the
  execution pass `FileRenamerApp.rename_files_from_excel` (lines 746-884).

Modelling conventions (flat, non-recursive folder model):

* The target folder is modelled as the list of file base names it contains
  (`fs : List String`); names in a real directory are unique, and duplicate
  freedom is carried as a hypothesis where a proof needs it.  Full paths are
  determined in the non-recursive mode: every path handled by the pass is
  `target_folder/<base name>`, so `os.path.exists(new_path)` is membership of
  the base name in `fs` and `os.rename(old_path, new_path)` replaces the old
  base name by the new one.
* The `files_map` dict maps base name to full path; in the flat model every
  stored value is `target_folder/<key>`, so the dict is represented by its
  list of keys (`dict.pop` removes a key, assignment adds the key if absent).
* `os.path.samefile` is modelled for a filesystem without hard links: two
  paths are the same file exactly when they are the same existing path.
  Crucially, the real `os.path.samefile` raises `OSError` when a path does
  not exist, and in the script that call sits *outside* the per-row
  `try/except`, so such an exception aborts the whole pass (it is caught by
  the function-level handler, which returns `None`).  The executor is
  therefore modelled in the `Except` monad.
* `os.rename` failures (permission denied, path too long, ...) are modelled
  by an oracle `Nat → Option String` giving, per row number, the error
  message of the exception the OS raises there, or `none` for success.  The
  oracle is consulted only when a rename is actually attempted (live runs).
* Each `log_file.write(...)` call is modelled as appending the written string
  to `ExecState.log`.  The GUI progress bar, `time.sleep` pacing, the
  pre-scan `planned` counter (used only for the progress bar), and the
  copy-based backup contents are presentation/IO details with no effect on
  classification, counters or log text, and are not modelled; the backup
  message interpolated into the log header is modelled.
* `pandas` reads cells with `dtype=str` and `.fillna("")`, so a `Row` holds
  the raw cell strings of one spreadsheet row; `str(...)` coercions are
  therefore identities and `.strip()` is modelled by `pyStrip`.
-/

/-- Model of Python `str.strip()`: remove whitespace from both ends. -/
def pyStrip (s : String) : String :=
  String.mk (((s.data.dropWhile Char.isWhitespace).reverse.dropWhile Char.isWhitespace).reverse)

/-- Model of Python `str.endswith(suffix)`. -/
def pyEndswith (s suffix : String) : Bool :=
  List.isSuffixOf suffix.data s.data

/-- Index of the last `'.'` in a character list, if any. -/
def lastDot : List Char → Option Nat
  | [] => none
  | c :: rest =>
    match lastDot rest with
    | some i => some (i + 1)
    | none => if c = '.' then some 0 else none

/-- Model of `os.path.splitext(name)[0]` for a bare file name (no directory
separators): split at the last dot, except when every character before that
dot is itself a dot (CPython skips leading dots, so `".bashrc"` has no
extension). -/
def splitextStem (name : String) : String :=
  match lastDot name.data with
  | none => name
  | some i => if (name.data.take i).all (· = '.') then name else String.mk (name.data.take i)

/-- One spreadsheet row as the pass reads it: the raw cell strings of the
columns `Current_Filename` (B, the join key), `Prefix`, `New_Filename` and
`Notes`.  `pandas` is invoked with `dtype=str` and `.fillna("")`, so every
cell is a string and blank cells are `""`. -/
structure Row where
  Current_Filename : String
  prefixCol : String
  New_Filename : String
  Notes : String
deriving DecidableEq

/-- The stem computed by `generate_new_name` before the extension logic (the
local `new_base` of the Python source, lines 684-703).  `prefix` and
`New_Filename` are read with `str(...).strip()`; the mode is the literal
string of the GUI radio button (`"Prefix"`, anything else meaning Replace);
the delimiter is a plain string (the source's `delimiter is not None` guard
is vacuous, as the Tk `StringVar` never yields `None`). -/
def genStem (row : Row) (old_name mode delimiter : String) : String :=
  let prefixVal := pyStrip row.prefixCol
  let new_field := pyStrip row.New_Filename
  if mode = "Prefix" then
    if prefixVal ≠ "" then
      let base := if new_field ≠ "" then new_field else splitextStem old_name
      prefixVal ++ delimiter ++ base
    else
      if new_field ≠ "" then new_field else splitextStem old_name
  else
    if new_field ≠ "" then new_field else splitextStem old_name

/-- Embedding of `FileRenamerApp.generate_new_name` (lines 682-707): compute
the stem, then append the extension unless the stem already ends with it. -/
def generate_new_name (row : Row) (old_name mode ext delimiter : String) : String :=
  let new_base := genStem row old_name mode delimiter
  if pyEndswith new_base ext = false then new_base ++ ext else new_base

/-- Classification of one spreadsheet row by the execution pass: which branch
of the per-row loop body of `rename_files_from_excel` handled it.  Ghost
observer: it records exactly the branch whose log line was written and whose
counter was incremented. -/
inductive RowStatus where
  | skipEmptyKey
  | skipNotFound
  | noChange
  | collision
  | renamed
  | renameFailed
deriving DecidableEq

/-- The run parameters of one execution pass: the function arguments of
`rename_files_from_excel` plus the GUI state it reads (`dry_run_var`,
`backup_var`) and the strings interpolated into the log header.  The two
`datetime.now()` timestamps (log header, backup folder) are taken moments
apart and modelled as the same string. -/
structure Config where
  mode : String
  ext : String
  delimiter : String
  dry_run : Bool
  backup : Bool
  excel_path : String
  target_folder : String
  timestamp : String

/-- State threaded through the per-row loop of `rename_files_from_excel`:
the folder contents, the keys of the `files_map` dict, the three counters,
the log text written so far (one list entry per `log_file.write` call) and
the ghost per-row classification trace. -/
structure ExecState where
  fs : List String
  files_map : List String
  renamed_count : Nat
  error_count : Nat
  skipped_count : Nat
  log : List String
  statuses : List RowStatus
deriving DecidableEq

/-- Model of `files_map.pop(key, None)`: remove the key (dict keys are
unique, so erasing the first occurrence is erasing the occurrence). -/
def dictPop (m : List String) (k : String) : List String := m.erase k

/-- Model of `files_map[key] = value` on the key list: assignment adds the
key when absent and only overwrites the value (invisible in the key-list
representation) when present. -/
def dictInsert (m : List String) (k : String) : List String :=
  if k ∈ m then m else m ++ [k]

/-- Embedding of `FileRenamerApp.get_files` (lines 665-680) in the
non-recursive case: the folder entries whose name ends with the configured
extension.  The source also sorts the result; the sorted order is dropped
here because the listing is only ever used to build the `files_map` dict,
whose key set ignores insertion order. -/
def get_files (fs : List String) (ext : String) : List String :=
  fs.filter (fun f => pyEndswith f ext)

/-- Seventy `=` characters, the ruler line of the log. -/
def eq70 : String := String.mk (List.replicate 70 '=')

/-- The `backup_msg` string interpolated into the log header (lines 767-771):
the backup happens only when the backup box is ticked and the run is live. -/
def backupMsg (cfg : Config) : String :=
  if cfg.backup = true && cfg.dry_run = false then
    "Backup: " ++ cfg.target_folder ++ "/backup_" ++ cfg.timestamp ++ "\n\n"
  else ""

/-- The log header: the nine `log_file.write` calls before the loop
(lines 790-798). -/
def headerLines (cfg : Config) : List String :=
  ["FILE RENAMER PRO V9 - Log File\n",
   eq70 ++ "\n",
   "Timestamp: " ++ cfg.timestamp ++ "\n\n",
   "Excel: " ++ cfg.excel_path ++ "\n",
   "Target: " ++ cfg.target_folder ++ "\n",
   "Mode: " ++ cfg.mode ++ " | Delimiter: \x27" ++ cfg.delimiter ++ "\x27 | Extension: " ++ cfg.ext ++ "\n",
   "Matching: Strict Current_Filename (Column B) matching\n",
   backupMsg cfg ++ "\n",
   eq70 ++ "\n\n"]

/-- The trailing summary: the five `log_file.write` calls after the loop
(lines 862-866). -/
def summaryLines (renamed_count error_count skipped_count : Nat) : List String :=
  ["\n" ++ eq70 ++ "\n",
   "SUMMARY\n",
   eq70 ++ "\n",
   "Renamed: " ++ toString renamed_count ++ " | Errors: " ++ toString error_count ++ " | Skipped: " ++ toString skipped_count ++ "\n",
   "Total processed: " ++ toString (renamed_count + error_count + skipped_count) ++ "\n"]

/-- The successful path through the `try` block (lines 843-855): perform the
rename when the run is live (`doRename`), log the outcome and the optional
user note, bump `renamed_count`, and update `files_map` (pop the old key,
assign the new one). -/
def renameSuccess (st : ExecState) (doRename : Bool) (old_name new_name notes : String) : ExecState :=
  { st with
    fs := if doRename then (st.fs.erase old_name) ++ [new_name] else st.fs,
    files_map := dictInsert (dictPop st.files_map old_name) new_name,
    renamed_count := st.renamed_count + 1,
    log := st.log ++
      (["✓ " ++ old_name ++ "\n", "  → " ++ new_name ++ "\n"] ++
       (if notes ≠ "" then ["  User Note: " ++ notes ++ "\n"] else []) ++ ["\n"]),
    statuses := st.statuses ++ [RowStatus.renamed] }

/-- The `try/except` block around `os.rename` (lines 842-860): in a dry run
`os.rename` is not called (so it cannot fail); in a live run the OS either
performs the rename or raises, in which case the row is recorded as an error
and the loop continues. -/
def execRename (cfg : Config) (osRename : Nat → Option String) (st : ExecState)
    (rownum : Nat) (old_name new_name notes : String) : ExecState :=
  if cfg.dry_run = true then
    renameSuccess st false old_name new_name notes
  else
    match osRename rownum with
    | some e =>
      { st with
        log := st.log ++ ["✗ " ++ old_name ++ "\n", "  ERROR: " ++ e ++ "\n\n"],
        error_count := st.error_count + 1,
        statuses := st.statuses ++ [RowStatus.renameFailed] }
    | none => renameSuccess st true old_name new_name notes

/-- One iteration of the per-row loop of `rename_files_from_excel`
(lines 804-860), in source order: empty-key skip, not-found skip, name
generation, no-change skip, collision check against the live filesystem
(`os.path.exists(new_path) and not (os.path.exists(new_path) and
os.path.samefile(old_path, new_path))`, where `samefile` raises out of the
pass when `old_path` no longer exists), then the guarded rename. -/
def execRow (cfg : Config) (osRename : Nat → Option String) (st : ExecState)
    (rownum : Nat) (row : Row) : Except String ExecState :=
  let current_filename := pyStrip row.Current_Filename
  let notes := pyStrip row.Notes
  if current_filename = "" then
    .ok { st with
      log := st.log ++ ["⚠ Row " ++ toString rownum ++ ": Empty Current_Filename (skipped)\n"],
      skipped_count := st.skipped_count + 1,
      statuses := st.statuses ++ [RowStatus.skipEmptyKey] }
  else if current_filename ∉ st.files_map then
    .ok { st with
      log := st.log ++ ["⚠ Row " ++ toString rownum ++ ": File not found: \x27" ++ current_filename ++ "\x27 (skipped)\n"],
      skipped_count := st.skipped_count + 1,
      statuses := st.statuses ++ [RowStatus.skipNotFound] }
  else
    let old_name := current_filename
    let new_name := generate_new_name row old_name cfg.mode cfg.ext cfg.delimiter
    if old_name = new_name then
      .ok { st with
        log := st.log ++ ["○ " ++ old_name ++ " (no change)\n"],
        skipped_count := st.skipped_count + 1,
        statuses := st.statuses ++ [RowStatus.noChange] }
    else if new_name ∈ st.fs then
      if old_name ∈ st.fs then
        if new_name ∈ st.fs ∧ old_name = new_name then
          .ok (execRename cfg osRename st rownum old_name new_name notes)
        else
          .ok { st with
            log := st.log ++ ["✗ " ++ old_name ++ "\n", "  ERROR: Target exists: " ++ new_name ++ "\n\n"],
            error_count := st.error_count + 1,
            statuses := st.statuses ++ [RowStatus.collision] }
      else
        .error ("samefile raised: no such file " ++ cfg.target_folder ++ "/" ++ old_name)
    else
      .ok (execRename cfg osRename st rownum old_name new_name notes)

/-- The per-row loop: rows in spreadsheet order, `rownum = idx + 1`. -/
def execRows (cfg : Config) (osRename : Nat → Option String) :
    ExecState → Nat → List Row → Except String ExecState
  | st, _, [] => .ok st
  | st, rownum, row :: rest =>
    match execRow cfg osRename st rownum row with
    | .error e => .error e
    | .ok st' => execRows cfg osRename st' (rownum + 1) rest

/-- The loop entry state: fresh listing, empty counters, header written. -/
def initState (cfg : Config) (fs : List String) : ExecState :=
  { fs := fs,
    files_map := get_files fs cfg.ext,
    renamed_count := 0,
    error_count := 0,
    skipped_count := 0,
    log := headerLines cfg,
    statuses := [] }

/-- Embedding of `FileRenamerApp.rename_files_from_excel` (lines 746-884):
list the folder, build `files_map`, write the header, run the loop over the
spreadsheet rows, then write the summary.  `fs` is the folder contents at
entry, `rows` the spreadsheet rows in order.  An `.error` result models the
pass aborting through the function-level exception handler (which returns
`None` after showing an error box). -/
def rename_files_from_excel (cfg : Config) (osRename : Nat → Option String)
    (fs : List String) (rows : List Row) : Except String ExecState :=
  match execRows cfg osRename (initState cfg fs) 1 rows with
  | .error e => .error e
  | .ok st =>
    .ok { st with
          log := st.log ++ summaryLines st.renamed_count st.error_count st.skipped_count }

/-- The total of the three run counters, as reported on the log's
`Total processed:` line. -/
def sumCounts (st : ExecState) : Nat :=
  st.renamed_count + st.error_count + st.skipped_count

/-- Oracle for a machine on which every attempted `os.rename` succeeds. -/
def noFail : Nat → Option String := fun _ => none

/-- Oracle for a machine on which every attempted `os.rename` raises
`PermissionError`. -/
def alwaysFail : Nat → Option String := fun _ => some "[Errno 13] Permission denied"

/-- A live-run configuration used for concrete checks: Replace mode,
`.pdf` extension, backup off. -/
def cfgLive : Config :=
  ⟨"Replace", ".pdf", "-", false, false, "E.xlsx", "T", "2024-01-01 00:00:00"⟩

/-- The same configuration with Dry Run ticked. -/
def cfgDry : Config :=
  ⟨"Replace", ".pdf", "-", true, false, "E.xlsx", "T", "2024-01-01 00:00:00"⟩

/-- Concrete spreadsheet row: rename `a.pdf` to `N.pdf` (Replace mode). -/
def rowA : Row := ⟨"a.pdf", "", "N", ""⟩

/-- Concrete spreadsheet row: rename `b.pdf` to `N.pdf` as well. -/
def rowB : Row := ⟨"b.pdf", "", "N", ""⟩

/-- Concrete row with an empty join key. -/
def rowEmpty : Row := ⟨"", "001", "Something", "a note"⟩

/-- Concrete row whose join key matches no file. -/
def rowGhost : Row := ⟨"ghost.pdf", "", "X", ""⟩

/-- A folder holding the two source files of `rowA` and `rowB`. -/
def fsTwo : List String := ["a.pdf", "b.pdf"]

/-- The same folder with the shared target name `N.pdf` already present. -/
def fsPre : List String := ["a.pdf", "b.pdf", "N.pdf"]

example : splitextStem "invoice.pdf" = "invoice" := by decide
example : splitextStem ".bashrc" = ".bashrc" := by decide
example : splitextStem "archive.tar.gz" = "archive.tar" := by decide
example : generate_new_name ⟨"scan.jpg", "", "", ""⟩ "scan.jpg" "Replace" ".jpg" "-" = "scan.jpg" := by decide

/-- Appending the extension really does produce a name ending in it. -/
theorem pyEndswith_append (a b : String) : pyEndswith (a ++ b) b = true := by
  show List.isSuffixOf b.data (a.data ++ b.data) = true
  rw [List.isSuffixOf_iff_suffix]
  exact List.suffix_append a.data b.data

/-- The `try/except` block handles exactly one row: it adds one to exactly
one counter, records one status, leaves the folder untouched in a dry run,
and only appends to the log. -/
theorem execRename_inv (cfg : Config) (o : Nat → Option String) (st : ExecState)
    (n : Nat) (a b nt : String) :
    sumCounts (execRename cfg o st n a b nt) = sumCounts st + 1 ∧
    (execRename cfg o st n a b nt).statuses.length = st.statuses.length + 1 ∧
    (cfg.dry_run = true → (execRename cfg o st n a b nt).fs = st.fs) ∧
    ∃ t, (execRename cfg o st n a b nt).log = st.log ++ t ∧ 1 ≤ t.length := by
  unfold execRename renameSuccess
  split
  · exact ⟨by simp [sumCounts]; omega, by simp, fun _ => by simp, ⟨_, rfl, by simp⟩⟩
  · split
    · exact ⟨by simp [sumCounts]; omega, by simp, fun hd => by simp_all, ⟨_, rfl, by simp⟩⟩
    · refine ⟨by simp [sumCounts]; omega, by simp, fun hd => by simp_all, ⟨_, rfl, ?_⟩⟩
      simp

/-- Every row that the loop body finishes (without the pass aborting) adds
one to exactly one counter, records exactly one status, leaves the folder
untouched in a dry run, and only appends to the log. -/
theorem execRow_ok_inv (cfg : Config) (o : Nat → Option String) (st : ExecState)
    (n : Nat) (r : Row) (st' : ExecState) (h : execRow cfg o st n r = .ok st') :
    sumCounts st' = sumCounts st + 1 ∧
    st'.statuses.length = st.statuses.length + 1 ∧
    (cfg.dry_run = true → st'.fs = st.fs) ∧
    ∃ t, st'.log = st.log ++ t ∧ 1 ≤ t.length := by
  simp only [execRow] at h
  repeat' split at h
  any_goals exact Except.noConfusion h
  all_goals injection h with h
  any_goals (subst h; exact execRename_inv cfg o st n _ _ _)
  all_goals subst h
  all_goals exact ⟨by simp [sumCounts]; omega, by simp, fun _ => by simp, ⟨_, rfl, by simp⟩⟩

/-- Loop invariant: a completed run over `rows` adds exactly `rows.length`
across the three counters, records exactly one status per row, leaves the
folder untouched in a dry run, and only appends to the log, at least one
write per row. -/
theorem execRows_ok_inv (cfg : Config) (o : Nat → Option String) :
    ∀ (rows : List Row) (st : ExecState) (n : Nat) (st' : ExecState),
    execRows cfg o st n rows = .ok st' →
    sumCounts st' = sumCounts st + rows.length ∧
    st'.statuses.length = st.statuses.length + rows.length ∧
    (cfg.dry_run = true → st'.fs = st.fs) ∧
    ∃ t, st'.log = st.log ++ t ∧ rows.length ≤ t.length
  | [], st, n, st', h => by
    injection h with h
    subst h
    exact ⟨by simp, by simp, fun _ => rfl, ⟨[], by simp, by simp⟩⟩
  | row :: rest, st, n, st', h => by
    rw [show execRows cfg o st n (row :: rest)
        = (match execRow cfg o st n row with
           | .error e => .error e
           | .ok st1 => execRows cfg o st1 (n + 1) rest) from rfl] at h
    cases hrow : execRow cfg o st n row with
    | error e => rw [hrow] at h; exact Except.noConfusion h
    | ok st1 =>
      rw [hrow] at h
      obtain ⟨s1, l1, f1, t1, e1, b1⟩ := execRow_ok_inv cfg o st n row st1 hrow
      obtain ⟨s2, l2, f2, t2, e2, b2⟩ := execRows_ok_inv cfg o rest st1 (n + 1) st' h
      refine ⟨by simp only [List.length_cons]; omega,
              by simp only [List.length_cons]; omega,
              fun hd => by rw [f2 hd, f1 hd],
              ⟨t1 ++ t2, by rw [e2, e1, List.append_assoc], ?_⟩⟩
      simp only [List.length_cons, List.length_append]
      omega

/-- C5: in Prefix mode, a non-empty prefix yields the stem
`prefix + delimiter + (new_base if non-empty else the matched file's stem)`;
an empty prefix yields `new_base` if non-empty else the matched file's stem,
with the delimiter not applied; in particular prefix `001`, empty new base,
delimiter `-`, extension `.pdf` and matched name `invoice.pdf` yield
`001-invoice.pdf`, and empty prefix with new base `Report` and extension
`.pdf` yields `Report.pdf`. -/
theorem C5_prefix_mode_precedence (row : Row) (old_name delimiter : String) :
    (pyStrip row.prefixCol ≠ "" →
      genStem row old_name "Prefix" delimiter
        = pyStrip row.prefixCol ++ delimiter ++
          (if pyStrip row.New_Filename ≠ "" then pyStrip row.New_Filename
           else splitextStem old_name)) ∧
    (pyStrip row.prefixCol = "" →
      genStem row old_name "Prefix" delimiter
        = (if pyStrip row.New_Filename ≠ "" then pyStrip row.New_Filename
           else splitextStem old_name)) ∧
    generate_new_name ⟨"invoice.pdf", "001", "", ""⟩ "invoice.pdf" "Prefix" ".pdf" "-"
      = "001-invoice.pdf" ∧
    generate_new_name ⟨"x.pdf", "", "Report", ""⟩ "x.pdf" "Prefix" ".pdf" "-"
      = "Report.pdf" := by
  refine ⟨fun hp => ?_, fun hp => ?_, by decide, by decide⟩
  · simp [genStem, hp]
  · simp [genStem, hp]

/-- Witness for `C5_prefix_mode_precedence` at concrete rows: one with
prefix `001` and empty new base, one with empty prefix and new base
`Report`. -/
theorem C5_witness :
    genStem ⟨"invoice.pdf", "001", "", ""⟩ "invoice.pdf" "Prefix" "-" = "001-invoice" ∧
    genStem ⟨"x.pdf", "", "Report", ""⟩ "x.pdf" "Prefix" "-" = "Report" := by
  constructor
  · have h := (C5_prefix_mode_precedence ⟨"invoice.pdf", "001", "", ""⟩ "invoice.pdf" "-").1
      (by decide)
    rw [h]; decide
  · have h := (C5_prefix_mode_precedence ⟨"x.pdf", "", "Report", ""⟩ "x.pdf" "-").2.1
      (by decide)
    rw [h]; decide

/-- C6: for every intent, mode, delimiter and extension, the generated final
name is the stem with the extension appended, unless the stem already ends
with the extension, in which case nothing is appended; either way the output
ends with the extension. -/
theorem C6_extension_appended_unless_present
    (row : Row) (old_name mode ext delimiter : String) :
    generate_new_name row old_name mode ext delimiter
      = (if pyEndswith (genStem row old_name mode delimiter) ext = true
         then genStem row old_name mode delimiter
         else genStem row old_name mode delimiter ++ ext) ∧
    pyEndswith (generate_new_name row old_name mode ext delimiter) ext = true := by
  cases h : pyEndswith (genStem row old_name mode delimiter) ext
  · exact ⟨by simp [generate_new_name, h], by simp [generate_new_name, h, pyEndswith_append]⟩
  · exact ⟨by simp [generate_new_name, h], by simp [generate_new_name, h]⟩

/-- C10: in Replace mode the generated name does not depend on the `Prefix`
cell or on the delimiter: two calls whose inputs differ only in those two
places return the same name. -/
theorem C10_replace_mode_ignores_prefix_and_delimiter
    (cf p1 p2 nf nt old_name ext d1 d2 : String) :
    generate_new_name ⟨cf, p1, nf, nt⟩ old_name "Replace" ext d1
      = generate_new_name ⟨cf, p2, nf, nt⟩ old_name "Replace" ext d2 := rfl

/-- C9: for every spreadsheet processed to completion by the execution pass,
each row lands in exactly one of the three tallies, so
`renamed_count + error_count + skipped_count` equals the number of rows. -/
theorem C9_every_row_counted_exactly_once (cfg : Config) (o : Nat → Option String)
    (fs : List String) (rows : List Row) :
    (rename_files_from_excel cfg o fs rows).toOption.map
        (fun s => s.renamed_count + s.error_count + s.skipped_count)
      = (rename_files_from_excel cfg o fs rows).toOption.map (fun _ => rows.length) := by
  unfold rename_files_from_excel
  cases h : execRows cfg o (initState cfg fs) 1 rows with
  | error e => rfl
  | ok st =>
    obtain ⟨hs, -, -, -⟩ := execRows_ok_inv cfg o rows (initState cfg fs) 1 st h
    simp only [sumCounts, initState] at hs
    simp [Except.toOption]
    omega

/-- C1 (amended): running the pass with Dry Run ticked performs no renames —
the folder contents after the run are exactly the folder contents before it,
whatever the spreadsheet and folder state.  (The original claim's further
assertions — `renamed_count` 0 and classification identical to a live run —
are refuted by `C1_counterexample`.) -/
theorem C1_dry_run_leaves_folder_unchanged (cfg : Config) (o : Nat → Option String)
    (fs : List String) (rows : List Row) (hdry : cfg.dry_run = true) :
    (rename_files_from_excel cfg o fs rows).toOption.map (fun s => s.fs)
      = (rename_files_from_excel cfg o fs rows).toOption.map (fun _ => fs) := by
  unfold rename_files_from_excel
  cases h : execRows cfg o (initState cfg fs) 1 rows with
  | error e => rfl
  | ok st =>
    obtain ⟨-, -, hfs, -⟩ := execRows_ok_inv cfg o rows (initState cfg fs) 1 st h
    have : st.fs = fs := hfs hdry
    simp [Except.toOption, this]

/-- Witness for `C1_dry_run_leaves_folder_unchanged` on a concrete dry run. -/
theorem C1_witness :
    (rename_files_from_excel cfgDry noFail fsTwo [rowA, rowB]).toOption.map (fun s => s.fs)
      = (rename_files_from_excel cfgDry noFail fsTwo [rowA, rowB]).toOption.map
          (fun _ => fsTwo) :=
  C1_dry_run_leaves_folder_unchanged cfgDry noFail fsTwo [rowA, rowB] rfl

/-- C1 is false as stated: on the folder `[a.pdf, b.pdf]` with two rows both
renaming to `N.pdf`, the dry run reports `renamed_count = 2` (not 0), and
classifies both rows as renames, while the live run classifies the second
row as a collision — the dry run's collision check consults the real
filesystem, which only a live run mutates. -/
theorem C1_counterexample :
    (rename_files_from_excel cfgDry noFail fsTwo [rowA, rowB]).toOption.map
        (fun s => s.renamed_count) = some 2 ∧
    (rename_files_from_excel cfgDry noFail fsTwo [rowA, rowB]).toOption.map
        (fun s => s.renamed_count) ≠ some 0 ∧
    (rename_files_from_excel cfgDry noFail fsTwo [rowA, rowB]).toOption.map
        (fun s => s.statuses) = some [RowStatus.renamed, RowStatus.renamed] ∧
    (rename_files_from_excel cfgLive noFail fsTwo [rowA, rowB]).toOption.map
        (fun s => s.statuses) = some [RowStatus.renamed, RowStatus.collision] ∧
    (rename_files_from_excel cfgDry noFail fsTwo [rowA, rowB]).toOption.map
        (fun s => s.statuses)
      ≠ (rename_files_from_excel cfgLive noFail fsTwo [rowA, rowB]).toOption.map
        (fun s => s.statuses) := by
  decide

/-- C8 (amended): whenever the pass runs to completion — dry runs included —
the audit log consists of the header with the run parameters, at least one
entry per spreadsheet row, and the trailing summary of the three counts.
(The original claim's further assertion that a dry run's log is labelled as
a preview is refuted by `C8_counterexample`: no such label exists.) -/
theorem C8_log_written_even_in_dry_run (cfg : Config) (o : Nat → Option String)
    (fs : List String) (rows : List Row) (hdry : cfg.dry_run = true) :
    (rename_files_from_excel cfg o fs rows).toOption.map
        (fun s => s.log.take (headerLines cfg).length)
      = (rename_files_from_excel cfg o fs rows).toOption.map (fun _ => headerLines cfg) ∧
    (rename_files_from_excel cfg o fs rows).toOption.map
        (fun s => s.log.drop (s.log.length
          - (summaryLines s.renamed_count s.error_count s.skipped_count).length))
      = (rename_files_from_excel cfg o fs rows).toOption.map
        (fun s => summaryLines s.renamed_count s.error_count s.skipped_count) ∧
    (rename_files_from_excel cfg o fs rows).toOption.map
        (fun s => decide ((headerLines cfg).length + rows.length
          + (summaryLines s.renamed_count s.error_count s.skipped_count).length
          ≤ s.log.length))
      = (rename_files_from_excel cfg o fs rows).toOption.map (fun _ => true) := by
  unfold rename_files_from_excel
  cases h : execRows cfg o (initState cfg fs) 1 rows with
  | error e => exact ⟨rfl, rfl, rfl⟩
  | ok st =>
    obtain ⟨-, -, -, t, hlog, hlen⟩ := execRows_ok_inv cfg o rows (initState cfg fs) 1 st h
    simp only [initState] at hlog
    have h1 : (st.log ++ summaryLines st.renamed_count st.error_count st.skipped_count).take
        (headerLines cfg).length = headerLines cfg := by
      rw [hlog, List.append_assoc]
      exact List.take_left _ _
    have h2 : (st.log ++ summaryLines st.renamed_count st.error_count st.skipped_count).drop
        ((st.log ++ summaryLines st.renamed_count st.error_count st.skipped_count).length
          - (summaryLines st.renamed_count st.error_count st.skipped_count).length)
        = summaryLines st.renamed_count st.error_count st.skipped_count := by
      have hl : (st.log ++ summaryLines st.renamed_count st.error_count st.skipped_count).length
          - (summaryLines st.renamed_count st.error_count st.skipped_count).length
          = st.log.length := by
        simp [List.length_append]
      rw [hl]
      exact List.drop_left _ _
    have h3 : (headerLines cfg).length + rows.length
        + (summaryLines st.renamed_count st.error_count st.skipped_count).length
        ≤ (st.log ++ summaryLines st.renamed_count st.error_count st.skipped_count).length := by
      rw [hlog]
      simp only [List.length_append]
      omega
    refine ⟨?_, ?_, ?_⟩ <;> simp [Except.toOption, h1, h2, h3]
    rw [hlog]
    simp only [List.length_append]
    omega

/-- Witness for `C8_log_written_even_in_dry_run` on a concrete dry run. -/
theorem C8_witness :
    (rename_files_from_excel cfgDry noFail fsTwo [rowA]).toOption.map
        (fun s => s.log.take (headerLines cfgDry).length)
      = (rename_files_from_excel cfgDry noFail fsTwo [rowA]).toOption.map
          (fun _ => headerLines cfgDry) :=
  (C8_log_written_even_in_dry_run cfgDry noFail fsTwo [rowA] rfl).1

/-- C8 is false as stated: the dry-run log is not labelled as a preview — on
the folder `[a.pdf]` with one renaming row (and backup off), the log written
by the dry run is byte-for-byte the log written by the live run, so it
cannot carry any label distinguishing it as a preview. -/
theorem C8_counterexample :
    (rename_files_from_excel cfgDry noFail ["a.pdf"] [rowA]).toOption.map (fun s => s.log)
      = (rename_files_from_excel cfgLive noFail ["a.pdf"] [rowA]).toOption.map (fun s => s.log) ∧
    (rename_files_from_excel cfgDry noFail ["a.pdf"] [rowA]).toOption.map (fun s => s.log)
      ≠ none := by
  decide

/-- C4: matching is by exact, case-sensitive string equality between the
stripped `Current_Filename` cell and a listed base name — the lookup is
membership of that exact string in the `files_map` keys — with no fallback
on the row position: for every row number `n`, an empty join key is
classified SKIP_EMPTY_KEY whatever the other cells hold, and a non-empty key
matching no listed name is classified SKIP_NOT_FOUND; in both cases the
folder and the listing are left untouched (no rename is attempted). -/
theorem C4_exact_match_no_positional_fallback (cfg : Config) (o : Nat → Option String)
    (st : ExecState) (n : Nat) (row : Row) :
    (pyStrip row.Current_Filename = "" →
      execRow cfg o st n row = .ok { st with
        log := st.log ++ ["⚠ Row " ++ toString n ++ ": Empty Current_Filename (skipped)\n"],
        skipped_count := st.skipped_count + 1,
        statuses := st.statuses ++ [RowStatus.skipEmptyKey] }) ∧
    (pyStrip row.Current_Filename ≠ "" → pyStrip row.Current_Filename ∉ st.files_map →
      execRow cfg o st n row = .ok { st with
        log := st.log ++ ["⚠ Row " ++ toString n ++ ": File not found: \x27"
          ++ pyStrip row.Current_Filename ++ "\x27 (skipped)\n"],
        skipped_count := st.skipped_count + 1,
        statuses := st.statuses ++ [RowStatus.skipNotFound] }) := by
  constructor
  · intro hk
    simp only [execRow]
    rw [if_pos hk]
  · intro hk hm
    simp only [execRow]
    rw [if_neg hk, if_pos hm]

/-- Witness for `C4_exact_match_no_positional_fallback`: an empty-key row
and a row whose key matches nothing, at two different row positions. -/
theorem C4_witness :
    execRow cfgLive noFail (initState cfgLive fsTwo) 5 rowEmpty = .ok
      { initState cfgLive fsTwo with
        log := (initState cfgLive fsTwo).log
          ++ ["⚠ Row " ++ toString 5 ++ ": Empty Current_Filename (skipped)\n"],
        skipped_count := (initState cfgLive fsTwo).skipped_count + 1,
        statuses := (initState cfgLive fsTwo).statuses ++ [RowStatus.skipEmptyKey] } ∧
    execRow cfgLive noFail (initState cfgLive fsTwo) 2 rowGhost = .ok
      { initState cfgLive fsTwo with
        log := (initState cfgLive fsTwo).log
          ++ ["⚠ Row " ++ toString 2 ++ ": File not found: \x27"
            ++ pyStrip rowGhost.Current_Filename ++ "\x27 (skipped)\n"],
        skipped_count := (initState cfgLive fsTwo).skipped_count + 1,
        statuses := (initState cfgLive fsTwo).statuses ++ [RowStatus.skipNotFound] } :=
  ⟨(C4_exact_match_no_positional_fallback cfgLive noFail (initState cfgLive fsTwo) 5 rowEmpty).1
      (by decide),
   (C4_exact_match_no_positional_fallback cfgLive noFail (initState cfgLive fsTwo) 2 rowGhost).2
      (by decide) (by decide)⟩

/-- C3: for a matched row whose generated name differs from its current
name, an existing filesystem entry under the generated name — necessarily a
different file here, since its name differs from the file's own — makes the
row a COLLISION, recorded as an error and not executed (folder untouched);
and a generated name equal to the file's own current name makes the row
NO_CHANGE, never a collision. -/
theorem C3_disk_collision_and_self_no_change (cfg : Config) (o : Nat → Option String)
    (st : ExecState) (n : Nat) (row : Row)
    (hkey : pyStrip row.Current_Filename ≠ "")
    (hmem : pyStrip row.Current_Filename ∈ st.files_map) :
    (generate_new_name row (pyStrip row.Current_Filename) cfg.mode cfg.ext cfg.delimiter
        ≠ pyStrip row.Current_Filename →
      pyStrip row.Current_Filename ∈ st.fs →
      generate_new_name row (pyStrip row.Current_Filename) cfg.mode cfg.ext cfg.delimiter
        ∈ st.fs →
      execRow cfg o st n row = .ok { st with
        log := st.log ++ ["✗ " ++ pyStrip row.Current_Filename ++ "\n",
          "  ERROR: Target exists: "
            ++ generate_new_name row (pyStrip row.Current_Filename) cfg.mode cfg.ext cfg.delimiter
            ++ "\n\n"],
        error_count := st.error_count + 1,
        statuses := st.statuses ++ [RowStatus.collision] }) ∧
    (generate_new_name row (pyStrip row.Current_Filename) cfg.mode cfg.ext cfg.delimiter
        = pyStrip row.Current_Filename →
      execRow cfg o st n row = .ok { st with
        log := st.log ++ ["○ " ++ pyStrip row.Current_Filename ++ " (no change)\n"],
        skipped_count := st.skipped_count + 1,
        statuses := st.statuses ++ [RowStatus.noChange] }) := by
  constructor
  · intro hne hold hnew
    simp only [execRow]
    rw [if_neg hkey, if_neg (not_not_intro hmem), if_neg (fun h => hne h.symm),
        if_pos hnew, if_pos hold, if_neg (fun hc => hne hc.2.symm)]
  · intro heq
    simp only [execRow]
    rw [if_neg hkey, if_neg (not_not_intro hmem), if_pos heq.symm]

/-- Witness for `C3_disk_collision_and_self_no_change`: on the folder
`[a.pdf, N.pdf]`, the row renaming `a.pdf` to the already-present `N.pdf`
collides; a Replace-mode row with an empty new-name cell regenerates the
file's own name and is NO_CHANGE. -/
theorem C3_witness :
    (execRow cfgLive noFail (initState cfgLive ["a.pdf", "N.pdf"]) 1 rowA).toOption.map
        (fun s => (s.statuses, s.error_count, s.fs))
      = some ([RowStatus.collision], 1, ["a.pdf", "N.pdf"]) ∧
    (execRow cfgLive noFail (initState cfgLive ["a.pdf"]) 1 ⟨"a.pdf", "", "", ""⟩).toOption.map
        (fun s => (s.statuses, s.skipped_count))
      = some ([RowStatus.noChange], 1) := by
  constructor
  · have h := (C3_disk_collision_and_self_no_change cfgLive noFail
        (initState cfgLive ["a.pdf", "N.pdf"]) 1 rowA (by decide) (by decide)).1
      (by decide) (by decide) (by decide)
    rw [h]
    decide
  · have h := (C3_disk_collision_and_self_no_change cfgLive noFail
        (initState cfgLive ["a.pdf"]) 1 ⟨"a.pdf", "", "", ""⟩ (by decide) (by decide)).2
      (by decide)
    rw [h]
    decide

/-- C7: a filesystem rename failure is caught per row: the failing row is
recorded as an error (folder and listing untouched), and however the rest of
the batch unfolds, a completed pass still records one status and one count
per row — a single failure never silently drops rows.  (Only the `samefile`
crash modelled by the `.error` outcome — the spec's catastrophic channel —
aborts a pass, and then no result is produced at all.) -/
theorem C7_rename_failure_is_per_row (cfg : Config) (o : Nat → Option String)
    (st : ExecState) (n : Nat) (row : Row) (rest : List Row) (msg : String)
    (hdry : cfg.dry_run = false)
    (hkey : pyStrip row.Current_Filename ≠ "")
    (hmem : pyStrip row.Current_Filename ∈ st.files_map)
    (hne : generate_new_name row (pyStrip row.Current_Filename) cfg.mode cfg.ext cfg.delimiter
        ≠ pyStrip row.Current_Filename)
    (hfresh : generate_new_name row (pyStrip row.Current_Filename) cfg.mode cfg.ext cfg.delimiter
        ∉ st.fs)
    (hfail : o n = some msg) :
    execRow cfg o st n row = .ok { st with
      log := st.log ++ ["✗ " ++ pyStrip row.Current_Filename ++ "\n",
        "  ERROR: " ++ msg ++ "\n\n"],
      error_count := st.error_count + 1,
      statuses := st.statuses ++ [RowStatus.renameFailed] } ∧
    (execRows cfg o st n (row :: rest)).toOption.map
        (fun s => s.renamed_count + s.error_count + s.skipped_count)
      = (execRows cfg o st n (row :: rest)).toOption.map
        (fun _ => st.renamed_count + st.error_count + st.skipped_count + (row :: rest).length) ∧
    (execRows cfg o st n (row :: rest)).toOption.map (fun s => s.statuses.length)
      = (execRows cfg o st n (row :: rest)).toOption.map
        (fun _ => st.statuses.length + (row :: rest).length) := by
  refine ⟨?_, ?_, ?_⟩
  · simp only [execRow, execRename]
    rw [if_neg hkey, if_neg (not_not_intro hmem), if_neg (fun h => hne h.symm), if_neg hfresh,
        if_neg (show ¬(cfg.dry_run = true) by simp [hdry]), hfail]
  · cases h : execRows cfg o st n (row :: rest) with
    | error e => rfl
    | ok s =>
      obtain ⟨hs, -, -, -⟩ := execRows_ok_inv cfg o (row :: rest) st n s h
      simp only [sumCounts] at hs
      simp [Except.toOption, hs]
  · cases h : execRows cfg o st n (row :: rest) with
    | error e => rfl
    | ok s =>
      obtain ⟨-, hl, -, -⟩ := execRows_ok_inv cfg o (row :: rest) st n s h
      simp [Except.toOption, hl]

/-- Witness for `C7_rename_failure_is_per_row`: a two-row batch on a machine
where every rename raises `PermissionError`; both rows are still processed
and counted. -/
theorem C7_witness :
    (execRows cfgLive alwaysFail (initState cfgLive fsTwo) 1 [rowA, rowB]).toOption.map
        (fun s => s.statuses.length)
      = (execRows cfgLive alwaysFail (initState cfgLive fsTwo) 1 [rowA, rowB]).toOption.map
        (fun _ => (initState cfgLive fsTwo).statuses.length + ([rowA, rowB] : List Row).length) :=
  (C7_rename_failure_is_per_row cfgLive alwaysFail (initState cfgLive fsTwo) 1 rowA [rowB]
    "[Errno 13] Permission denied" rfl (by decide) (by decide) (by decide) (by decide) rfl).2.2

/-- C2 (amended): for two intents matched to distinct files whose generated
names agree (and differ from both current names), in a live run whose rename
succeeds and in which the shared target name is not already present in the
folder, the earlier row is classified RENAME and the later row COLLISION,
and the later row's rename is never performed — its file keeps its old name.
(Without the freshness and liveness provisos the original claim fails, see
`C2_counterexample`.) -/
theorem C2_first_claim_wins_on_fresh_target (cfg : Config) (fs : List String)
    (r1 r2 : Row) (N : String)
    (hdry : cfg.dry_run = false)
    (hk1 : pyStrip r1.Current_Filename ≠ "")
    (hk2 : pyStrip r2.Current_Filename ≠ "")
    (hdistinct : pyStrip r1.Current_Filename ≠ pyStrip r2.Current_Filename)
    (hm1 : pyStrip r1.Current_Filename ∈ get_files fs cfg.ext)
    (hm2 : pyStrip r2.Current_Filename ∈ get_files fs cfg.ext)
    (hg1 : generate_new_name r1 (pyStrip r1.Current_Filename) cfg.mode cfg.ext cfg.delimiter = N)
    (hg2 : generate_new_name r2 (pyStrip r2.Current_Filename) cfg.mode cfg.ext cfg.delimiter = N)
    (hn1 : N ≠ pyStrip r1.Current_Filename)
    (hn2 : N ≠ pyStrip r2.Current_Filename)
    (hfresh : N ∉ fs) :
    (rename_files_from_excel cfg noFail fs [r1, r2]).toOption.map (fun s => s.statuses)
      = some [RowStatus.renamed, RowStatus.collision] ∧
    (rename_files_from_excel cfg noFail fs [r1, r2]).toOption.map
        (fun s => decide (pyStrip r2.Current_Filename ∈ s.fs))
      = some true := by
  have hk2fs : pyStrip r2.Current_Filename ∈ fs := (List.mem_filter.mp hm2).1
  have hk2e : pyStrip r2.Current_Filename
      ∈ (get_files fs cfg.ext).erase (pyStrip r1.Current_Filename) :=
    (List.mem_erase_of_ne (Ne.symm hdistinct)).mpr hm2
  have hk2fse : pyStrip r2.Current_Filename ∈ fs.erase (pyStrip r1.Current_Filename) :=
    (List.mem_erase_of_ne (Ne.symm hdistinct)).mpr hk2fs
  have e1 : execRow cfg noFail (initState cfg fs) 1 r1
      = .ok (renameSuccess (initState cfg fs) true (pyStrip r1.Current_Filename) N
          (pyStrip r1.Notes)) := by
    simp only [execRow, execRename]
    rw [if_neg hk1,
        if_neg (not_not_intro
          (show pyStrip r1.Current_Filename ∈ (initState cfg fs).files_map from hm1)),
        hg1, if_neg (fun h => hn1 h.symm),
        if_neg (show ¬(N ∈ (initState cfg fs).fs) from hfresh),
        if_neg (show ¬(cfg.dry_run = true) by simp [hdry])]
    rfl
  have hk2m : pyStrip r2.Current_Filename
      ∈ (renameSuccess (initState cfg fs) true (pyStrip r1.Current_Filename) N
          (pyStrip r1.Notes)).files_map := by
    show pyStrip r2.Current_Filename
      ∈ dictInsert ((get_files fs cfg.ext).erase (pyStrip r1.Current_Filename)) N
    unfold dictInsert
    split
    · exact hk2e
    · exact List.mem_append_left _ hk2e
  have hNfs1 : N ∈ (renameSuccess (initState cfg fs) true (pyStrip r1.Current_Filename) N
      (pyStrip r1.Notes)).fs := by
    show N ∈ fs.erase (pyStrip r1.Current_Filename) ++ [N]
    exact List.mem_append_right _ (List.mem_singleton.mpr rfl)
  have hk2fs1 : pyStrip r2.Current_Filename
      ∈ (renameSuccess (initState cfg fs) true (pyStrip r1.Current_Filename) N
          (pyStrip r1.Notes)).fs := by
    show pyStrip r2.Current_Filename ∈ fs.erase (pyStrip r1.Current_Filename) ++ [N]
    exact List.mem_append_left _ hk2fse
  have e2 : execRow cfg noFail
      (renameSuccess (initState cfg fs) true (pyStrip r1.Current_Filename) N (pyStrip r1.Notes))
      2 r2
      = .ok { renameSuccess (initState cfg fs) true (pyStrip r1.Current_Filename) N
            (pyStrip r1.Notes) with
          log := (renameSuccess (initState cfg fs) true (pyStrip r1.Current_Filename) N
            (pyStrip r1.Notes)).log
            ++ ["✗ " ++ pyStrip r2.Current_Filename ++ "\n",
                "  ERROR: Target exists: " ++ N ++ "\n\n"],
          error_count := (renameSuccess (initState cfg fs) true (pyStrip r1.Current_Filename) N
            (pyStrip r1.Notes)).error_count + 1,
          statuses := (renameSuccess (initState cfg fs) true (pyStrip r1.Current_Filename) N
            (pyStrip r1.Notes)).statuses ++ [RowStatus.collision] } := by
    simp only [execRow]
    rw [if_neg hk2, if_neg (not_not_intro hk2m), hg2, if_neg (fun h => hn2 h.symm),
        if_pos hNfs1, if_pos hk2fs1, if_neg (fun hc => hn2 hc.2.symm)]
  constructor
  · simp only [rename_files_from_excel, execRows, e1, e2]
    simp [renameSuccess, initState, Except.toOption]
  · simp only [rename_files_from_excel, execRows, e1, e2]
    simp [renameSuccess, initState, Except.toOption, hk2fse]

/-- Witness for `C2_first_claim_wins_on_fresh_target`: `a.pdf` and `b.pdf`
both mapped to the fresh name `N.pdf` in a live run. -/
theorem C2_witness :
    (rename_files_from_excel cfgLive noFail fsTwo [rowA, rowB]).toOption.map
        (fun s => s.statuses)
      = some [RowStatus.renamed, RowStatus.collision] :=
  (C2_first_claim_wins_on_fresh_target cfgLive fsTwo rowA rowB "N.pdf" rfl (by decide)
    (by decide) (by decide) (by decide) (by decide) (by decide) (by decide) (by decide)
    (by decide) (by decide)).1

/-- C2 is false as stated: the claim's hypotheses do not require the shared
target name to be absent from the folder, nor the run to be live.  On
`[a.pdf, b.pdf, N.pdf]` (target `N.pdf` already on disk) the live run
classifies the *earlier* row as COLLISION too, not RENAME; and in a dry run
on `[a.pdf, b.pdf]` the later duplicate-target row is classified as a rename
rather than COLLISION. -/
theorem C2_counterexample :
    (rename_files_from_excel cfgLive noFail fsPre [rowA, rowB]).toOption.map
        (fun s => s.statuses) = some [RowStatus.collision, RowStatus.collision] ∧
    (rename_files_from_excel cfgLive noFail fsPre [rowA, rowB]).toOption.map
        (fun s => s.statuses) ≠ some [RowStatus.renamed, RowStatus.collision] ∧
    (rename_files_from_excel cfgDry noFail fsTwo [rowA, rowB]).toOption.map
        (fun s => s.statuses) = some [RowStatus.renamed, RowStatus.renamed] ∧
    (rename_files_from_excel cfgDry noFail fsTwo [rowA, rowB]).toOption.map
        (fun s => s.statuses) ≠ some [RowStatus.renamed, RowStatus.collision] := by
  decide
